import Mathlib

/-!
# Embedding example: `main` of `examples/embed_example/main.c`

`main` drives the initialisation of the compiled extension module
`embed_example` through the C API of the host runtime.  Every primitive of the
runtime is external; its outcome is taken from a `Runtime` record (one outcome
per primitive, each primitive being called at most once), and every call `main`
makes is appended to a trace of `Event`s.  Pointers are natural numbers, the
null pointer is `0`.
-/

namespace EmbedExample

/-- A `PyObject *` value; `NULL` is address zero. -/
abbrev Ptr := Nat

/-- The null pointer. -/
def NULL : Ptr := 0

/-- The local pointer variables of `main` that are handed to `Py_XDECREF`. -/
inductive Var where
  | res
  | mod
  | spec
  | spec_globals
  deriving DecidableEq, Repr

/-- The binding name looked up in `spec_globals` (line 24). -/
def specKey : String := "spec"

/-- One call that `main` makes into the runtime (or into the module),
with its arguments and the value it returned.  `Py_DECREF v p` is the real
release performed by `Py_XDECREF(v)` when the variable `v` holds the non-null
pointer `p`. -/
inductive Event where
  | Py_Initialize
  | PyInit_embed_example (ret : Ptr)
  | Py_IS_TYPE (ob : Ptr) (ret : Bool)
  | PyDict_New (ret : Ptr)
  | PyRun_String (globals locals ret : Ptr)
  | PyDict_GetItemString (dict : Ptr) (key : String) (ret : Ptr)
  | PyModule_FromDefAndSpec (d spec ret : Ptr)
  | PyModule_ExecDef (m d : Ptr) (ret : Int)
  | func
  | PyErr_Print
  | Py_DECREF (v : Var) (p : Ptr)
  | Py_Finalize
  deriving DecidableEq, Repr

/-- Outcomes of the runtime primitives called by `main`.
`Py_IS_TYPE` is the value of `Py_IS_TYPE(maybe_mod, &PyModuleDef_Type)`. -/
structure Runtime where
  PyInit_embed_example : Ptr
  Py_IS_TYPE : Bool
  PyDict_New : Ptr
  PyRun_String : Ptr
  PyDict_GetItemString : Ptr
  PyModule_FromDefAndSpec : Ptr
  PyModule_ExecDef : Int
  deriving DecidableEq, Repr

/-- The local state of `main` when control reaches line 44: the calls made so
far, `result`, and the three pointer variables declared on line 7. -/
structure Locals where
  trace : List Event
  result : Int
  mod : Ptr
  spec : Ptr
  spec_globals : Ptr
  deriving DecidableEq, Repr

/-- What `main` leaves behind: every call it made, in order, and the value it
returned. -/
structure Final where
  trace : List Event
  result : Int
  deriving DecidableEq, Repr

/-- The macro `Py_XDECREF(v)`: a release of the object when the pointer is
non-null, nothing for `NULL`. -/
def Py_XDECREF (v : Var) (p : Ptr) : List Event :=
  if p = NULL then [] else [Event.Py_DECREF v p]

/-- The label `bad:` (lines 41-42): `PyErr_Print()`, then control falls out of
the `if (0)` block to line 44. -/
def bad (tr : List Event) (result : Int) (mod spec spec_globals : Ptr) : Locals :=
  { trace := tr ++ [Event.PyErr_Print]
    result := result
    mod := mod
    spec := spec
    spec_globals := spec_globals }

/-- Lines 37-40: `func(); result = 0;` and the skipped `if (0)` block. -/
def good (tr : List Event) (mod spec spec_globals : Ptr) : Locals :=
  { trace := tr ++ [Event.func]
    result := 0
    mod := mod
    spec := spec
    spec_globals := spec_globals }

/-- Lines 6-43 of `main`: everything up to the point where the success path and
the `goto bad` paths have joined again. -/
def steps (rt : Runtime) : Locals :=
  let result : Int := 1
  let spec : Ptr := NULL
  let spec_globals : Ptr := NULL
  let mod : Ptr := NULL
  let tr : List Event := [Event.Py_Initialize]
  let maybe_mod : Ptr := rt.PyInit_embed_example
  let tr := tr ++ [Event.PyInit_embed_example maybe_mod]
  if maybe_mod = NULL then bad tr result mod spec spec_globals else
  let tr := tr ++ [Event.Py_IS_TYPE maybe_mod rt.Py_IS_TYPE]
  if rt.Py_IS_TYPE = true then
    -- multi-phase init
    let spec_globals : Ptr := rt.PyDict_New
    let tr := tr ++ [Event.PyDict_New spec_globals]
    if spec_globals = NULL then bad tr result mod spec spec_globals else
    let res : Ptr := rt.PyRun_String
    let tr := tr ++ [Event.PyRun_String spec_globals spec_globals res]
    let tr := tr ++ Py_XDECREF Var.res res
    if res = NULL then bad tr result mod spec spec_globals else
    let spec : Ptr := rt.PyDict_GetItemString
    let tr := tr ++ [Event.PyDict_GetItemString spec_globals specKey spec]
    if spec = NULL then bad tr result mod spec spec_globals else
    let mod : Ptr := rt.PyModule_FromDefAndSpec
    let tr := tr ++ [Event.PyModule_FromDefAndSpec maybe_mod spec mod]
    if mod = NULL then bad tr result mod spec spec_globals else
    let execRes : Int := rt.PyModule_ExecDef
    let tr := tr ++ [Event.PyModule_ExecDef mod maybe_mod execRes]
    if execRes ≠ 0 then bad tr result mod spec spec_globals else
    good tr mod spec spec_globals
  else
    let mod : Ptr := maybe_mod
    good tr mod spec spec_globals

/-- Lines 45-47: the three releases, in source order. -/
def unwind (mod spec spec_globals : Ptr) : List Event :=
  Py_XDECREF Var.mod mod ++ Py_XDECREF Var.spec spec
    ++ Py_XDECREF Var.spec_globals spec_globals

/-- Lines 44-49: the unwind, `Py_Finalize()` and `return result`. -/
def cleanup (l : Locals) : Final :=
  { trace := l.trace ++ unwind l.mod l.spec l.spec_globals ++ [Event.Py_Finalize]
    result := l.result }

/-- The function `main` (lines 5-50). -/
def main (rt : Runtime) : Final :=
  cleanup (steps rt)

/-! ## Observations on a trace -/

/-- The name of the function (or macro) an event is a call of. -/
inductive Prim where
  | Py_Initialize
  | PyInit_embed_example
  | Py_IS_TYPE
  | PyDict_New
  | PyRun_String
  | PyDict_GetItemString
  | PyModule_FromDefAndSpec
  | PyModule_ExecDef
  | func
  | PyErr_Print
  | Py_DECREF
  | Py_Finalize
  deriving DecidableEq, Repr

/-- The function an event is a call of. -/
def Event.prim : Event → Prim
  | Event.Py_Initialize => Prim.Py_Initialize
  | Event.PyInit_embed_example _ => Prim.PyInit_embed_example
  | Event.Py_IS_TYPE _ _ => Prim.Py_IS_TYPE
  | Event.PyDict_New _ => Prim.PyDict_New
  | Event.PyRun_String _ _ _ => Prim.PyRun_String
  | Event.PyDict_GetItemString _ _ _ => Prim.PyDict_GetItemString
  | Event.PyModule_FromDefAndSpec _ _ _ => Prim.PyModule_FromDefAndSpec
  | Event.PyModule_ExecDef _ _ _ => Prim.PyModule_ExecDef
  | Event.func => Prim.func
  | Event.PyErr_Print => Prim.PyErr_Print
  | Event.Py_DECREF _ _ => Prim.Py_DECREF
  | Event.Py_Finalize => Prim.Py_Finalize

/-- How many times the function `f` is called in a trace. -/
def calls (f : Prim) (tr : List Event) : Nat :=
  tr.countP (fun e => decide (e.prim = f))

/-- Whether an event is a real release issued through the variable `v`. -/
def Event.isRelease (v : Var) : Event → Bool
  | Event.Py_DECREF w _ => decide (w = v)
  | _ => false

/-- How many real releases a trace performs through the variable `v`. -/
def releases (v : Var) (tr : List Event) : Nat :=
  tr.countP (Event.isRelease v)

/-- Whether an event is a real release of the object at address `p`, through
whichever variable. -/
def Event.releasesObject (p : Ptr) : Event → Bool
  | Event.Py_DECREF _ q => decide (q = p)
  | _ => false

/-- How many real releases of the object at address `p` a trace performs. -/
def releasesOf (p : Ptr) (tr : List Event) : Nat :=
  tr.countP (Event.releasesObject p)

/-! ## The failure kinds of the specification -/

/-- The error taxonomy of the specification (section 7). -/
inductive InitError where
  | EntryPointFailed
  | SpecConstructionFailed
  | SpecMissing
  | MaterializationFailed
  | ExecutionFailed
  deriving DecidableEq, Repr

/-- The failure kind of the first failing step, as the specification words it
(section 4.1, steps 1-5): a null entry-point result; a failed environment
allocation or a failed construction run; an unbound `spec`; a null
materialization result; a non-zero execution status.  `none` when no step
fails. -/
def firstFailure (rt : Runtime) : Option InitError :=
  if rt.PyInit_embed_example = NULL then some InitError.EntryPointFailed
  else if rt.Py_IS_TYPE = false then none
  else if rt.PyDict_New = NULL then some InitError.SpecConstructionFailed
  else if rt.PyRun_String = NULL then some InitError.SpecConstructionFailed
  else if rt.PyDict_GetItemString = NULL then some InitError.SpecMissing
  else if rt.PyModule_FromDefAndSpec = NULL then some InitError.MaterializationFailed
  else if rt.PyModule_ExecDef ≠ 0 then some InitError.ExecutionFailed
  else none

/-- The failure kind a single call signals through its return value, if any. -/
def Event.failure : Event → Option InitError
  | Event.PyInit_embed_example ret =>
      if ret = NULL then some InitError.EntryPointFailed else none
  | Event.PyDict_New ret =>
      if ret = NULL then some InitError.SpecConstructionFailed else none
  | Event.PyRun_String _ _ ret =>
      if ret = NULL then some InitError.SpecConstructionFailed else none
  | Event.PyDict_GetItemString _ _ ret =>
      if ret = NULL then some InitError.SpecMissing else none
  | Event.PyModule_FromDefAndSpec _ _ ret =>
      if ret = NULL then some InitError.MaterializationFailed else none
  | Event.PyModule_ExecDef _ _ ret =>
      if ret ≠ 0 then some InitError.ExecutionFailed else none
  | _ => none

/-- The calls that belong to steps after the one a failure kind names. -/
def laterSteps : InitError → List Prim
  | InitError.EntryPointFailed =>
      [Prim.Py_IS_TYPE, Prim.PyDict_New, Prim.PyRun_String, Prim.PyDict_GetItemString,
        Prim.PyModule_FromDefAndSpec, Prim.PyModule_ExecDef, Prim.func]
  | InitError.SpecConstructionFailed =>
      [Prim.PyDict_GetItemString, Prim.PyModule_FromDefAndSpec, Prim.PyModule_ExecDef,
        Prim.func]
  | InitError.SpecMissing =>
      [Prim.PyModule_FromDefAndSpec, Prim.PyModule_ExecDef, Prim.func]
  | InitError.MaterializationFailed => [Prim.PyModule_ExecDef, Prim.func]
  | InitError.ExecutionFailed => [Prim.func]

/-! ## Reference-count accounting -/

/-- The owned references that the calls of a trace hand to the variable `v`,
under the return conventions of the C API: `PyDict_New`, `PyRun_String` and
`PyModule_FromDefAndSpec` return a new reference when they return non-null;
`PyDict_GetItemString` returns a borrowed reference (the dictionary keeps the
only one); the entry point returns a new reference to a ready module (kept in
`mod`, line 34), while a module definition "isn't an owned reference"
(line 44). -/
def ownedRefs (v : Var) : List Event → Nat
  | [] => 0
  | Event.PyInit_embed_example p :: Event.Py_IS_TYPE ob ty :: tr =>
      (if v = Var.mod ∧ p ≠ NULL ∧ ob = p ∧ ty = false then 1 else 0) + ownedRefs v tr
  | Event.PyDict_New p :: tr =>
      (if v = Var.spec_globals ∧ p ≠ NULL then 1 else 0) + ownedRefs v tr
  | Event.PyRun_String _ _ p :: tr =>
      (if v = Var.res ∧ p ≠ NULL then 1 else 0) + ownedRefs v tr
  | Event.PyModule_FromDefAndSpec _ _ p :: tr =>
      (if v = Var.mod ∧ p ≠ NULL then 1 else 0) + ownedRefs v tr
  | _ :: tr => ownedRefs v tr

/-- The condition under which every step that `main` takes succeeds. -/
def allStepsSucceed (rt : Runtime) : Prop :=
  rt.PyInit_embed_example ≠ NULL ∧
    (rt.Py_IS_TYPE = false ∨
      (rt.Py_IS_TYPE = true ∧ rt.PyDict_New ≠ NULL ∧ rt.PyRun_String ≠ NULL ∧
        rt.PyDict_GetItemString ≠ NULL ∧ rt.PyModule_FromDefAndSpec ≠ NULL ∧
        rt.PyModule_ExecDef = 0))

instance (rt : Runtime) : Decidable (allStepsSucceed rt) := by
  unfold allStepsSucceed; infer_instance

/-! ## The eight control-flow paths of `main` -/

/-- The hypotheses that select one control-flow path of `main`, together with
the state at line 44 and the complete trace on that path. -/
inductive Path (rt : Runtime) : Prop where
  | entryNull (h0 : rt.PyInit_embed_example = 0)
      (hs : steps rt = ⟨[Event.Py_Initialize, Event.PyInit_embed_example 0,
        Event.PyErr_Print], 1, 0, 0, 0⟩)
      (hm : main rt = ⟨[Event.Py_Initialize, Event.PyInit_embed_example 0,
        Event.PyErr_Print, Event.Py_Finalize], 1⟩)
  | ready (h0 : rt.PyInit_embed_example ≠ 0) (h1 : rt.Py_IS_TYPE = false)
      (hs : steps rt = ⟨[Event.Py_Initialize,
        Event.PyInit_embed_example rt.PyInit_embed_example,
        Event.Py_IS_TYPE rt.PyInit_embed_example false, Event.func],
        0, rt.PyInit_embed_example, 0, 0⟩)
      (hm : main rt = ⟨[Event.Py_Initialize,
        Event.PyInit_embed_example rt.PyInit_embed_example,
        Event.Py_IS_TYPE rt.PyInit_embed_example false, Event.func,
        Event.Py_DECREF Var.mod rt.PyInit_embed_example, Event.Py_Finalize], 0⟩)
  | dictNull (h0 : rt.PyInit_embed_example ≠ 0) (h1 : rt.Py_IS_TYPE = true)
      (h2 : rt.PyDict_New = 0)
      (hs : steps rt = ⟨[Event.Py_Initialize,
        Event.PyInit_embed_example rt.PyInit_embed_example,
        Event.Py_IS_TYPE rt.PyInit_embed_example true, Event.PyDict_New 0,
        Event.PyErr_Print], 1, 0, 0, 0⟩)
      (hm : main rt = ⟨[Event.Py_Initialize,
        Event.PyInit_embed_example rt.PyInit_embed_example,
        Event.Py_IS_TYPE rt.PyInit_embed_example true, Event.PyDict_New 0,
        Event.PyErr_Print, Event.Py_Finalize], 1⟩)
  | runNull (h0 : rt.PyInit_embed_example ≠ 0) (h1 : rt.Py_IS_TYPE = true)
      (h2 : rt.PyDict_New ≠ 0) (h3 : rt.PyRun_String = 0)
      (hs : steps rt = ⟨[Event.Py_Initialize,
        Event.PyInit_embed_example rt.PyInit_embed_example,
        Event.Py_IS_TYPE rt.PyInit_embed_example true, Event.PyDict_New rt.PyDict_New,
        Event.PyRun_String rt.PyDict_New rt.PyDict_New 0,
        Event.PyErr_Print], 1, 0, 0, rt.PyDict_New⟩)
      (hm : main rt = ⟨[Event.Py_Initialize,
        Event.PyInit_embed_example rt.PyInit_embed_example,
        Event.Py_IS_TYPE rt.PyInit_embed_example true, Event.PyDict_New rt.PyDict_New,
        Event.PyRun_String rt.PyDict_New rt.PyDict_New 0,
        Event.PyErr_Print, Event.Py_DECREF Var.spec_globals rt.PyDict_New,
        Event.Py_Finalize], 1⟩)
  | lookupNull (h0 : rt.PyInit_embed_example ≠ 0) (h1 : rt.Py_IS_TYPE = true)
      (h2 : rt.PyDict_New ≠ 0) (h3 : rt.PyRun_String ≠ 0)
      (h4 : rt.PyDict_GetItemString = 0)
      (hs : steps rt = ⟨[Event.Py_Initialize,
        Event.PyInit_embed_example rt.PyInit_embed_example,
        Event.Py_IS_TYPE rt.PyInit_embed_example true, Event.PyDict_New rt.PyDict_New,
        Event.PyRun_String rt.PyDict_New rt.PyDict_New rt.PyRun_String,
        Event.Py_DECREF Var.res rt.PyRun_String,
        Event.PyDict_GetItemString rt.PyDict_New specKey 0,
        Event.PyErr_Print], 1, 0, 0, rt.PyDict_New⟩)
      (hm : main rt = ⟨[Event.Py_Initialize,
        Event.PyInit_embed_example rt.PyInit_embed_example,
        Event.Py_IS_TYPE rt.PyInit_embed_example true, Event.PyDict_New rt.PyDict_New,
        Event.PyRun_String rt.PyDict_New rt.PyDict_New rt.PyRun_String,
        Event.Py_DECREF Var.res rt.PyRun_String,
        Event.PyDict_GetItemString rt.PyDict_New specKey 0,
        Event.PyErr_Print, Event.Py_DECREF Var.spec_globals rt.PyDict_New,
        Event.Py_Finalize], 1⟩)
  | fromDefNull (h0 : rt.PyInit_embed_example ≠ 0) (h1 : rt.Py_IS_TYPE = true)
      (h2 : rt.PyDict_New ≠ 0) (h3 : rt.PyRun_String ≠ 0)
      (h4 : rt.PyDict_GetItemString ≠ 0) (h5 : rt.PyModule_FromDefAndSpec = 0)
      (hs : steps rt = ⟨[Event.Py_Initialize,
        Event.PyInit_embed_example rt.PyInit_embed_example,
        Event.Py_IS_TYPE rt.PyInit_embed_example true, Event.PyDict_New rt.PyDict_New,
        Event.PyRun_String rt.PyDict_New rt.PyDict_New rt.PyRun_String,
        Event.Py_DECREF Var.res rt.PyRun_String,
        Event.PyDict_GetItemString rt.PyDict_New specKey rt.PyDict_GetItemString,
        Event.PyModule_FromDefAndSpec rt.PyInit_embed_example rt.PyDict_GetItemString 0,
        Event.PyErr_Print], 1, 0, rt.PyDict_GetItemString, rt.PyDict_New⟩)
      (hm : main rt = ⟨[Event.Py_Initialize,
        Event.PyInit_embed_example rt.PyInit_embed_example,
        Event.Py_IS_TYPE rt.PyInit_embed_example true, Event.PyDict_New rt.PyDict_New,
        Event.PyRun_String rt.PyDict_New rt.PyDict_New rt.PyRun_String,
        Event.Py_DECREF Var.res rt.PyRun_String,
        Event.PyDict_GetItemString rt.PyDict_New specKey rt.PyDict_GetItemString,
        Event.PyModule_FromDefAndSpec rt.PyInit_embed_example rt.PyDict_GetItemString 0,
        Event.PyErr_Print, Event.Py_DECREF Var.spec rt.PyDict_GetItemString,
        Event.Py_DECREF Var.spec_globals rt.PyDict_New, Event.Py_Finalize], 1⟩)
  | execFail (h0 : rt.PyInit_embed_example ≠ 0) (h1 : rt.Py_IS_TYPE = true)
      (h2 : rt.PyDict_New ≠ 0) (h3 : rt.PyRun_String ≠ 0)
      (h4 : rt.PyDict_GetItemString ≠ 0) (h5 : rt.PyModule_FromDefAndSpec ≠ 0)
      (h6 : rt.PyModule_ExecDef ≠ 0)
      (hs : steps rt = ⟨[Event.Py_Initialize,
        Event.PyInit_embed_example rt.PyInit_embed_example,
        Event.Py_IS_TYPE rt.PyInit_embed_example true, Event.PyDict_New rt.PyDict_New,
        Event.PyRun_String rt.PyDict_New rt.PyDict_New rt.PyRun_String,
        Event.Py_DECREF Var.res rt.PyRun_String,
        Event.PyDict_GetItemString rt.PyDict_New specKey rt.PyDict_GetItemString,
        Event.PyModule_FromDefAndSpec rt.PyInit_embed_example rt.PyDict_GetItemString
          rt.PyModule_FromDefAndSpec,
        Event.PyModule_ExecDef rt.PyModule_FromDefAndSpec rt.PyInit_embed_example
          rt.PyModule_ExecDef,
        Event.PyErr_Print], 1, rt.PyModule_FromDefAndSpec, rt.PyDict_GetItemString,
        rt.PyDict_New⟩)
      (hm : main rt = ⟨[Event.Py_Initialize,
        Event.PyInit_embed_example rt.PyInit_embed_example,
        Event.Py_IS_TYPE rt.PyInit_embed_example true, Event.PyDict_New rt.PyDict_New,
        Event.PyRun_String rt.PyDict_New rt.PyDict_New rt.PyRun_String,
        Event.Py_DECREF Var.res rt.PyRun_String,
        Event.PyDict_GetItemString rt.PyDict_New specKey rt.PyDict_GetItemString,
        Event.PyModule_FromDefAndSpec rt.PyInit_embed_example rt.PyDict_GetItemString
          rt.PyModule_FromDefAndSpec,
        Event.PyModule_ExecDef rt.PyModule_FromDefAndSpec rt.PyInit_embed_example
          rt.PyModule_ExecDef,
        Event.PyErr_Print, Event.Py_DECREF Var.mod rt.PyModule_FromDefAndSpec,
        Event.Py_DECREF Var.spec rt.PyDict_GetItemString,
        Event.Py_DECREF Var.spec_globals rt.PyDict_New, Event.Py_Finalize], 1⟩)
  | success (h0 : rt.PyInit_embed_example ≠ 0) (h1 : rt.Py_IS_TYPE = true)
      (h2 : rt.PyDict_New ≠ 0) (h3 : rt.PyRun_String ≠ 0)
      (h4 : rt.PyDict_GetItemString ≠ 0) (h5 : rt.PyModule_FromDefAndSpec ≠ 0)
      (h6 : rt.PyModule_ExecDef = 0)
      (hs : steps rt = ⟨[Event.Py_Initialize,
        Event.PyInit_embed_example rt.PyInit_embed_example,
        Event.Py_IS_TYPE rt.PyInit_embed_example true, Event.PyDict_New rt.PyDict_New,
        Event.PyRun_String rt.PyDict_New rt.PyDict_New rt.PyRun_String,
        Event.Py_DECREF Var.res rt.PyRun_String,
        Event.PyDict_GetItemString rt.PyDict_New specKey rt.PyDict_GetItemString,
        Event.PyModule_FromDefAndSpec rt.PyInit_embed_example rt.PyDict_GetItemString
          rt.PyModule_FromDefAndSpec,
        Event.PyModule_ExecDef rt.PyModule_FromDefAndSpec rt.PyInit_embed_example 0,
        Event.func], 0, rt.PyModule_FromDefAndSpec, rt.PyDict_GetItemString,
        rt.PyDict_New⟩)
      (hm : main rt = ⟨[Event.Py_Initialize,
        Event.PyInit_embed_example rt.PyInit_embed_example,
        Event.Py_IS_TYPE rt.PyInit_embed_example true, Event.PyDict_New rt.PyDict_New,
        Event.PyRun_String rt.PyDict_New rt.PyDict_New rt.PyRun_String,
        Event.Py_DECREF Var.res rt.PyRun_String,
        Event.PyDict_GetItemString rt.PyDict_New specKey rt.PyDict_GetItemString,
        Event.PyModule_FromDefAndSpec rt.PyInit_embed_example rt.PyDict_GetItemString
          rt.PyModule_FromDefAndSpec,
        Event.PyModule_ExecDef rt.PyModule_FromDefAndSpec rt.PyInit_embed_example 0,
        Event.func, Event.Py_DECREF Var.mod rt.PyModule_FromDefAndSpec,
        Event.Py_DECREF Var.spec rt.PyDict_GetItemString,
        Event.Py_DECREF Var.spec_globals rt.PyDict_New, Event.Py_Finalize], 0⟩)

/-- Every run of `main` follows exactly one of the eight paths. -/
theorem path_of (rt : Runtime) : Path rt := by
  by_cases h0 : rt.PyInit_embed_example = 0
  · exact Path.entryNull h0
      (by simp [steps, bad, NULL, h0])
      (by simp [main, steps, cleanup, unwind, Py_XDECREF, bad, NULL, h0])
  by_cases h1 : rt.Py_IS_TYPE = true
  swap
  · have h1f : rt.Py_IS_TYPE = false := by simpa using h1
    exact Path.ready h0 h1f
      (by simp [steps, good, NULL, h0, h1f])
      (by simp [main, steps, cleanup, unwind, Py_XDECREF, good, NULL, h0, h1f])
  by_cases h2 : rt.PyDict_New = 0
  · exact Path.dictNull h0 h1 h2
      (by simp [steps, bad, NULL, h0, h1, h2])
      (by simp [main, steps, cleanup, unwind, Py_XDECREF, bad, NULL, h0, h1, h2])
  by_cases h3 : rt.PyRun_String = 0
  · exact Path.runNull h0 h1 h2 h3
      (by simp [steps, bad, Py_XDECREF, NULL, h0, h1, h2, h3])
      (by simp [main, steps, cleanup, unwind, Py_XDECREF, bad, NULL, h0, h1, h2, h3])
  by_cases h4 : rt.PyDict_GetItemString = 0
  · exact Path.lookupNull h0 h1 h2 h3 h4
      (by simp [steps, bad, Py_XDECREF, NULL, h0, h1, h2, h3, h4])
      (by simp [main, steps, cleanup, unwind, Py_XDECREF, bad, NULL, h0, h1, h2, h3, h4])
  by_cases h5 : rt.PyModule_FromDefAndSpec = 0
  · exact Path.fromDefNull h0 h1 h2 h3 h4 h5
      (by simp [steps, bad, Py_XDECREF, NULL, h0, h1, h2, h3, h4, h5])
      (by simp [main, steps, cleanup, unwind, Py_XDECREF, bad, NULL, h0, h1, h2, h3, h4, h5])
  by_cases h6 : rt.PyModule_ExecDef = 0
  · exact Path.success h0 h1 h2 h3 h4 h5 h6
      (by simp [steps, good, Py_XDECREF, NULL, h0, h1, h2, h3, h4, h5, h6])
      (by simp [main, steps, cleanup, unwind, Py_XDECREF, good, NULL, h0, h1, h2, h3, h4,
        h5, h6])
  · exact Path.execFail h0 h1 h2 h3 h4 h5 h6
      (by simp [steps, bad, Py_XDECREF, NULL, h0, h1, h2, h3, h4, h5, h6])
      (by simp [main, steps, cleanup, unwind, Py_XDECREF, bad, NULL, h0, h1, h2, h3, h4,
        h5, h6])

/-- C1: `main` returns 0 exactly when the entry point returned a non-null handle
that is either a ready module, or a descriptor for which environment allocation,
the spec-construction run, the lookup, materialization and execution all
succeeded; in every other case it returns 1. -/
theorem main_result_iff (rt : Runtime) :
    ((main rt).result = 0 ↔ allStepsSucceed rt) ∧
      ((main rt).result = if allStepsSucceed rt then 0 else 1) := by
  unfold allStepsSucceed main steps
  simp only [bad, good, cleanup, NULL]
  split_ifs <;> simp_all

/-- C2: when the entry point returns a ready module object (non-null, not of the
module-descriptor type), `main` calls `func` exactly once and returns 0, and it
never allocates, looks up or releases a binding environment or a specification:
the whole run is the six calls listed. -/
theorem ready_module_run (rt : Runtime)
    (hnn : rt.PyInit_embed_example ≠ NULL) (hty : rt.Py_IS_TYPE = false) :
    (main rt).trace =
        [Event.Py_Initialize, Event.PyInit_embed_example rt.PyInit_embed_example,
          Event.Py_IS_TYPE rt.PyInit_embed_example false, Event.func,
          Event.Py_DECREF Var.mod rt.PyInit_embed_example, Event.Py_Finalize] ∧
      (main rt).result = 0 ∧
      calls Prim.func (main rt).trace = 1 ∧
      calls Prim.PyDict_New (main rt).trace = 0 ∧
      calls Prim.PyRun_String (main rt).trace = 0 ∧
      calls Prim.PyDict_GetItemString (main rt).trace = 0 ∧
      releases Var.spec_globals (main rt).trace = 0 ∧
      releases Var.spec (main rt).trace = 0 ∧
      releases Var.res (main rt).trace = 0 ∧
      (steps rt).spec_globals = NULL ∧ (steps rt).spec = NULL := by
  have htr : (main rt).trace =
      [Event.Py_Initialize, Event.PyInit_embed_example rt.PyInit_embed_example,
        Event.Py_IS_TYPE rt.PyInit_embed_example false, Event.func,
        Event.Py_DECREF Var.mod rt.PyInit_embed_example, Event.Py_Finalize] := by
    simp [main, steps, cleanup, unwind, Py_XDECREF, good, hnn, hty]
  refine ⟨htr, ?_, ?_, ?_, ?_, ?_, ?_, ?_, ?_, ?_, ?_⟩
  · simp [main, steps, cleanup, good, hnn, hty]
  all_goals first
    | (rw [htr]; simp [calls, releases, Event.prim, Event.isRelease])
    | simp [steps, good, hnn, hty]

/-- Witness for `ready_module_run`: a ready module at address 7. -/
theorem ready_module_run_witness :
    (main ⟨7, false, 0, 0, 0, 0, 0⟩).result = 0 ∧
      calls Prim.func (main ⟨7, false, 0, 0, 0, 0, 0⟩).trace = 1 :=
  have h := ready_module_run ⟨7, false, 0, 0, 0, 0, 0⟩ (by decide) rfl
  ⟨h.2.1, h.2.2.1⟩

/-- C3, the claim as stated, refuted: with a module descriptor at address 1 and
a failing `PyDict_New`, no construction run takes place and neither the
environment nor the specification is released, so "exactly one of each, each
released exactly once, whatever the later steps do" does not hold. -/
theorem descriptor_exactly_one_each_fails :
    ¬ (∀ rt : Runtime, rt.PyInit_embed_example ≠ NULL → rt.Py_IS_TYPE = true →
        calls Prim.PyDict_New (main rt).trace = 1 ∧
        calls Prim.PyRun_String (main rt).trace = 1 ∧
        releases Var.spec_globals (main rt).trace = 1 ∧
        releases Var.spec (main rt).trace = 1) := by
  intro h
  have h0 := h ⟨1, true, 0, 0, 0, 0, 0⟩ (by decide) rfl
  exact absurd h0.2.1 (by decide)

/-- C3, amended: when the entry point returns a module descriptor, `main`
requests exactly one binding environment; it releases that environment exactly
once when the allocation succeeded and not at all when it failed; it performs
the spec-construction run exactly once when the environment was allocated and
not at all otherwise; and it looks `spec` up exactly once when the run
succeeded and not at all otherwise. -/
theorem descriptor_environment_accounting (rt : Runtime)
    (hnn : rt.PyInit_embed_example ≠ NULL) (hty : rt.Py_IS_TYPE = true) :
    calls Prim.PyDict_New (main rt).trace = 1 ∧
      releases Var.spec_globals (main rt).trace
        = (if rt.PyDict_New = NULL then 0 else 1) ∧
      (rt.PyDict_New ≠ NULL →
        Event.Py_DECREF Var.spec_globals rt.PyDict_New ∈ (main rt).trace) ∧
      calls Prim.PyRun_String (main rt).trace
        = (if rt.PyDict_New = NULL then 0 else 1) ∧
      calls Prim.PyDict_GetItemString (main rt).trace
        = (if rt.PyDict_New = NULL ∨ rt.PyRun_String = NULL then 0 else 1) := by
  cases path_of rt with
  | entryNull h0 hs hm => exact absurd h0 hnn
  | ready h0 h1 hs hm => simp [hty] at h1
  | _ =>
    simp_all [NULL, calls, releases, Event.prim, Event.isRelease, List.countP_cons]

/-- Witness for `descriptor_environment_accounting`: a descriptor at address 1
whose environment (address 2) is allocated and whose construction run fails. -/
theorem descriptor_environment_accounting_witness :
    calls Prim.PyDict_New (main ⟨1, true, 2, 0, 0, 0, 0⟩).trace = 1 ∧
      releases Var.spec_globals (main ⟨1, true, 2, 0, 0, 0, 0⟩).trace = 1 :=
  have h := descriptor_environment_accounting ⟨1, true, 2, 0, 0, 0, 0⟩ (by decide) rfl
  ⟨h.1, h.2.1⟩

/-- C4, the claim as stated, refuted: an entry-point failure and an execution
failure are different failure kinds, yet `main` reports the same value 1 for
both, so no reading of the reported value gives back the failure kind of the
first failing step. -/
theorem failure_kind_not_reported :
    firstFailure ⟨0, false, 0, 0, 0, 0, 0⟩ = some InitError.EntryPointFailed ∧
      firstFailure ⟨1, true, 2, 3, 4, 5, 1⟩ = some InitError.ExecutionFailed ∧
      (main ⟨0, false, 0, 0, 0, 0, 0⟩).result = 1 ∧
      (main ⟨1, true, 2, 3, 4, 5, 1⟩).result = 1 ∧
      ¬ (∃ kindOf : Int → InitError, ∀ (rt : Runtime) (k : InitError),
          firstFailure rt = some k → kindOf (main rt).result = k) := by
  refine ⟨by decide, by decide, by decide, by decide, ?_⟩
  rintro ⟨kindOf, h⟩
  have ha := h ⟨0, false, 0, 0, 0, 0, 0⟩ InitError.EntryPointFailed (by decide)
  have hb := h ⟨1, true, 2, 3, 4, 5, 1⟩ InitError.ExecutionFailed (by decide)
  have ra : (main ⟨0, false, 0, 0, 0, 0, 0⟩).result = 1 := by decide
  have rb : (main ⟨1, true, 2, 3, 4, 5, 1⟩).result = 1 := by decide
  rw [ra] at ha
  rw [rb] at hb
  rw [ha] at hb
  exact absurd hb (by decide)

/-- C4, amended: when a step fails with kind `k`, `main` returns the
undifferentiated status 1; the failing call is immediately followed by
`PyErr_Print`, the unwind and `Py_Finalize`; no call before it signalled a
failure; no call of a later step occurs anywhere in the run; and no function
other than the release macro is called more than once. -/
theorem failure_goes_to_unwind (rt : Runtime) (k : InitError)
    (hk : firstFailure rt = some k) :
    (main rt).result = 1 ∧
      (∃ pre e, (main rt).trace
          = pre ++ [e, Event.PyErr_Print]
            ++ unwind (steps rt).mod (steps rt).spec (steps rt).spec_globals
            ++ [Event.Py_Finalize] ∧
          e.failure = some k ∧ ∀ x ∈ pre, x.failure = none) ∧
      (∀ f ∈ laterSteps k, calls f (main rt).trace = 0) ∧
      (∀ f, f ≠ Prim.Py_DECREF → calls f (main rt).trace ≤ 1) := by
  cases path_of rt with
  | entryNull h0 hs hm =>
    have hk2 : k = InitError.EntryPointFailed := by
      simpa [firstFailure, NULL, h0] using hk.symm
    subst hk2
    refine ⟨by simp [hm], ⟨[Event.Py_Initialize], Event.PyInit_embed_example 0, ?_, ?_, ?_⟩,
      ?_, ?_⟩
    · simp [hm, hs, unwind, Py_XDECREF, NULL]
    · simp [Event.failure, NULL]
    · simp [Event.failure]
    · simp [hm, laterSteps, calls, Event.prim]
    · intro f hf
      cases f <;> simp_all [calls, Event.prim]
  | ready h0 h1 hs hm => simp [firstFailure, NULL, h0, h1] at hk
  | dictNull h0 h1 h2 hs hm =>
    have hk2 : k = InitError.SpecConstructionFailed := by
      simpa [firstFailure, NULL, h0, h1, h2] using hk.symm
    subst hk2
    refine ⟨by simp [hm], ⟨[Event.Py_Initialize,
      Event.PyInit_embed_example rt.PyInit_embed_example,
      Event.Py_IS_TYPE rt.PyInit_embed_example true], Event.PyDict_New 0, ?_, ?_, ?_⟩,
      ?_, ?_⟩
    · simp [hm, hs, unwind, Py_XDECREF, NULL]
    · simp [Event.failure, NULL]
    · simp [Event.failure, NULL, h0]
    · simp [hm, laterSteps, calls, Event.prim]
    · intro f hf
      cases f <;> simp_all [calls, Event.prim]
  | runNull h0 h1 h2 h3 hs hm =>
    have hk2 : k = InitError.SpecConstructionFailed := by
      simpa [firstFailure, NULL, h0, h1, h2, h3] using hk.symm
    subst hk2
    refine ⟨by simp [hm], ⟨[Event.Py_Initialize,
      Event.PyInit_embed_example rt.PyInit_embed_example,
      Event.Py_IS_TYPE rt.PyInit_embed_example true, Event.PyDict_New rt.PyDict_New],
      Event.PyRun_String rt.PyDict_New rt.PyDict_New 0, ?_, ?_, ?_⟩, ?_, ?_⟩
    · simp [hm, hs, unwind, Py_XDECREF, NULL, h2]
    · simp [Event.failure, NULL]
    · simp [Event.failure, NULL, h0, h2]
    · simp [hm, laterSteps, calls, Event.prim]
    · intro f hf
      cases f <;> simp_all [calls, Event.prim]
  | lookupNull h0 h1 h2 h3 h4 hs hm =>
    have hk2 : k = InitError.SpecMissing := by
      simpa [firstFailure, NULL, h0, h1, h2, h3, h4] using hk.symm
    subst hk2
    refine ⟨by simp [hm], ⟨[Event.Py_Initialize,
      Event.PyInit_embed_example rt.PyInit_embed_example,
      Event.Py_IS_TYPE rt.PyInit_embed_example true, Event.PyDict_New rt.PyDict_New,
      Event.PyRun_String rt.PyDict_New rt.PyDict_New rt.PyRun_String,
      Event.Py_DECREF Var.res rt.PyRun_String],
      Event.PyDict_GetItemString rt.PyDict_New specKey 0, ?_, ?_, ?_⟩, ?_, ?_⟩
    · simp [hm, hs, unwind, Py_XDECREF, NULL, h2]
    · simp [Event.failure, NULL]
    · simp [Event.failure, NULL, h0, h2, h3]
    · simp [hm, laterSteps, calls, Event.prim]
    · intro f hf
      cases f <;> simp_all [calls, Event.prim]
  | fromDefNull h0 h1 h2 h3 h4 h5 hs hm =>
    have hk2 : k = InitError.MaterializationFailed := by
      simpa [firstFailure, NULL, h0, h1, h2, h3, h4, h5] using hk.symm
    subst hk2
    refine ⟨by simp [hm], ⟨[Event.Py_Initialize,
      Event.PyInit_embed_example rt.PyInit_embed_example,
      Event.Py_IS_TYPE rt.PyInit_embed_example true, Event.PyDict_New rt.PyDict_New,
      Event.PyRun_String rt.PyDict_New rt.PyDict_New rt.PyRun_String,
      Event.Py_DECREF Var.res rt.PyRun_String,
      Event.PyDict_GetItemString rt.PyDict_New specKey rt.PyDict_GetItemString],
      Event.PyModule_FromDefAndSpec rt.PyInit_embed_example rt.PyDict_GetItemString 0,
      ?_, ?_, ?_⟩, ?_, ?_⟩
    · simp [hm, hs, unwind, Py_XDECREF, NULL, h2, h4]
    · simp [Event.failure, NULL]
    · simp [Event.failure, NULL, h0, h2, h3, h4]
    · simp [hm, laterSteps, calls, Event.prim]
    · intro f hf
      cases f <;> simp_all [calls, Event.prim]
  | execFail h0 h1 h2 h3 h4 h5 h6 hs hm =>
    have hk2 : k = InitError.ExecutionFailed := by
      simpa [firstFailure, NULL, h0, h1, h2, h3, h4, h5, h6] using hk.symm
    subst hk2
    refine ⟨by simp [hm], ⟨[Event.Py_Initialize,
      Event.PyInit_embed_example rt.PyInit_embed_example,
      Event.Py_IS_TYPE rt.PyInit_embed_example true, Event.PyDict_New rt.PyDict_New,
      Event.PyRun_String rt.PyDict_New rt.PyDict_New rt.PyRun_String,
      Event.Py_DECREF Var.res rt.PyRun_String,
      Event.PyDict_GetItemString rt.PyDict_New specKey rt.PyDict_GetItemString,
      Event.PyModule_FromDefAndSpec rt.PyInit_embed_example rt.PyDict_GetItemString
        rt.PyModule_FromDefAndSpec],
      Event.PyModule_ExecDef rt.PyModule_FromDefAndSpec rt.PyInit_embed_example
        rt.PyModule_ExecDef, ?_, ?_, ?_⟩, ?_, ?_⟩
    · simp [hm, hs, unwind, Py_XDECREF, NULL, h2, h4, h5]
    · simp [Event.failure, h6]
    · simp [Event.failure, NULL, h0, h2, h3, h4, h5]
    · simp [hm, laterSteps, calls, Event.prim]
    · intro f hf
      cases f <;> simp_all [calls, Event.prim]
  | success h0 h1 h2 h3 h4 h5 h6 hs hm =>
    simp [firstFailure, NULL, h0, h1, h2, h3, h4, h5, h6] at hk

/-- Witness for `failure_goes_to_unwind`: a descriptor whose materialization
returns null. -/
theorem failure_goes_to_unwind_witness :
    firstFailure ⟨1, true, 2, 3, 4, 0, 0⟩ = some InitError.MaterializationFailed ∧
      (main ⟨1, true, 2, 3, 4, 0, 0⟩).result = 1 ∧
      calls Prim.PyModule_ExecDef (main ⟨1, true, 2, 3, 4, 0, 0⟩).trace = 0 :=
  have h := failure_goes_to_unwind ⟨1, true, 2, 3, 4, 0, 0⟩
    InitError.MaterializationFailed (by decide)
  ⟨by decide, h.1, h.2.2.1 Prim.PyModule_ExecDef (by decide)⟩

/-- Reference-count accounting on every run, variable by variable: `res`, `mod`
and `spec_globals` are released exactly as often as an owned reference was
obtained for them; `spec` never holds an owned reference, and is released once
whenever the lookup returned non-null. -/
theorem accounting_by_variable (rt : Runtime) :
    releases Var.res (main rt).trace = ownedRefs Var.res (main rt).trace ∧
      releases Var.mod (main rt).trace = ownedRefs Var.mod (main rt).trace ∧
      releases Var.spec_globals (main rt).trace
        = ownedRefs Var.spec_globals (main rt).trace ∧
      ownedRefs Var.spec (main rt).trace = 0 ∧
      releases Var.spec (main rt).trace = (if (steps rt).spec = NULL then 0 else 1) := by
  cases path_of rt <;>
    simp_all [NULL, releases, ownedRefs, Event.isRelease, List.countP_cons]

/-- C5, evaluated at a failing input: a descriptor at address 1, environment 2,
construction result 3, `spec` found at address 4, materialization returning
null.  The run fails with `MaterializationFailed`; the only call that yields
the pointer 4 is the borrowing lookup, so no owned reference to the
specification exists, yet the unwind releases it once.  The other three
variables balance. -/
theorem borrowed_spec_is_released :
    firstFailure ⟨1, true, 2, 3, 4, 0, 0⟩ = some InitError.MaterializationFailed ∧
      (main ⟨1, true, 2, 3, 4, 0, 0⟩).trace =
        [Event.Py_Initialize, Event.PyInit_embed_example 1, Event.Py_IS_TYPE 1 true,
          Event.PyDict_New 2, Event.PyRun_String 2 2 3, Event.Py_DECREF Var.res 3,
          Event.PyDict_GetItemString 2 specKey 4,
          Event.PyModule_FromDefAndSpec 1 4 0, Event.PyErr_Print,
          Event.Py_DECREF Var.spec 4, Event.Py_DECREF Var.spec_globals 2,
          Event.Py_Finalize] ∧
      ownedRefs Var.spec (main ⟨1, true, 2, 3, 4, 0, 0⟩).trace = 0 ∧
      releases Var.spec (main ⟨1, true, 2, 3, 4, 0, 0⟩).trace = 1 ∧
      ownedRefs Var.spec_globals (main ⟨1, true, 2, 3, 4, 0, 0⟩).trace = 1 ∧
      releases Var.spec_globals (main ⟨1, true, 2, 3, 4, 0, 0⟩).trace = 1 ∧
      ownedRefs Var.res (main ⟨1, true, 2, 3, 4, 0, 0⟩).trace = 1 ∧
      releases Var.res (main ⟨1, true, 2, 3, 4, 0, 0⟩).trace = 1 := by
  refine ⟨by decide, by decide, by decide, by decide, by decide, by decide, by decide,
    by decide⟩

/-- C6: whenever every step succeeds (a non-null ready module, or a descriptor
for which allocation, construction run, lookup, materialization and execution
all succeed), `main` calls `func` exactly once and returns 0, and the calls
made before `func` include either the recognition of the non-null ready module
or the non-null materialization followed by an execution that returned 0;
whenever some step fails, `main` returns 1 and `func` is not called at all.
The same holds read from the returned value: one call when it is 0, none when
it is not. -/
theorem func_once_after_ready (rt : Runtime) :
    (allStepsSucceed rt →
        (main rt).result = 0 ∧
        calls Prim.func (main rt).trace = 1 ∧
        ∃ pre post, (main rt).trace = pre ++ [Event.func] ++ post ∧
          Event.func ∉ pre ∧ Event.func ∉ post ∧
          ((∃ q, q ≠ NULL ∧ Event.PyInit_embed_example q ∈ pre ∧
              Event.Py_IS_TYPE q false ∈ pre) ∨
            (∃ m d sp, m ≠ NULL ∧ Event.PyModule_FromDefAndSpec d sp m ∈ pre ∧
              Event.PyModule_ExecDef m d 0 ∈ pre))) ∧
      (¬ allStepsSucceed rt →
        (main rt).result = 1 ∧ calls Prim.func (main rt).trace = 0) ∧
      ((main rt).result = 0 →
        calls Prim.func (main rt).trace = 1 ∧
        ∃ pre post, (main rt).trace = pre ++ [Event.func] ++ post ∧
          Event.func ∉ pre ∧ Event.func ∉ post ∧
          ((∃ q, q ≠ NULL ∧ Event.PyInit_embed_example q ∈ pre ∧
              Event.Py_IS_TYPE q false ∈ pre) ∨
            (∃ m d sp, m ≠ NULL ∧ Event.PyModule_FromDefAndSpec d sp m ∈ pre ∧
              Event.PyModule_ExecDef m d 0 ∈ pre))) ∧
      ((main rt).result ≠ 0 → calls Prim.func (main rt).trace = 0) := by
  cases path_of rt with
  | ready h0 h1 hs hm =>
    have hsplit : ∃ pre post, (main rt).trace = pre ++ [Event.func] ++ post ∧
        Event.func ∉ pre ∧ Event.func ∉ post ∧
        ((∃ q, q ≠ NULL ∧ Event.PyInit_embed_example q ∈ pre ∧
            Event.Py_IS_TYPE q false ∈ pre) ∨
          (∃ m d sp, m ≠ NULL ∧ Event.PyModule_FromDefAndSpec d sp m ∈ pre ∧
            Event.PyModule_ExecDef m d 0 ∈ pre)) :=
      ⟨[Event.Py_Initialize, Event.PyInit_embed_example rt.PyInit_embed_example,
        Event.Py_IS_TYPE rt.PyInit_embed_example false],
        [Event.Py_DECREF Var.mod rt.PyInit_embed_example, Event.Py_Finalize],
        by simp [hm], by simp, by simp,
        Or.inl ⟨rt.PyInit_embed_example, by simpa [NULL] using h0, by simp, by simp⟩⟩
    have hc : calls Prim.func (main rt).trace = 1 := by simp [hm, calls, Event.prim]
    have hr : (main rt).result = 0 := by simp [hm]
    have hall : allStepsSucceed rt := ⟨by simpa [NULL] using h0, Or.inl h1⟩
    exact ⟨fun _ => ⟨hr, hc, hsplit⟩, fun h => absurd hall h, fun _ => ⟨hc, hsplit⟩,
      fun h => absurd hr h⟩
  | success h0 h1 h2 h3 h4 h5 h6 hs hm =>
    have hsplit : ∃ pre post, (main rt).trace = pre ++ [Event.func] ++ post ∧
        Event.func ∉ pre ∧ Event.func ∉ post ∧
        ((∃ q, q ≠ NULL ∧ Event.PyInit_embed_example q ∈ pre ∧
            Event.Py_IS_TYPE q false ∈ pre) ∨
          (∃ m d sp, m ≠ NULL ∧ Event.PyModule_FromDefAndSpec d sp m ∈ pre ∧
            Event.PyModule_ExecDef m d 0 ∈ pre)) :=
      ⟨[Event.Py_Initialize, Event.PyInit_embed_example rt.PyInit_embed_example,
        Event.Py_IS_TYPE rt.PyInit_embed_example true, Event.PyDict_New rt.PyDict_New,
        Event.PyRun_String rt.PyDict_New rt.PyDict_New rt.PyRun_String,
        Event.Py_DECREF Var.res rt.PyRun_String,
        Event.PyDict_GetItemString rt.PyDict_New specKey rt.PyDict_GetItemString,
        Event.PyModule_FromDefAndSpec rt.PyInit_embed_example rt.PyDict_GetItemString
          rt.PyModule_FromDefAndSpec,
        Event.PyModule_ExecDef rt.PyModule_FromDefAndSpec rt.PyInit_embed_example 0],
        [Event.Py_DECREF Var.mod rt.PyModule_FromDefAndSpec,
          Event.Py_DECREF Var.spec rt.PyDict_GetItemString,
          Event.Py_DECREF Var.spec_globals rt.PyDict_New, Event.Py_Finalize],
        by simp [hm], by simp, by simp,
        Or.inr ⟨rt.PyModule_FromDefAndSpec, rt.PyInit_embed_example,
          rt.PyDict_GetItemString, by simpa [NULL] using h5, by simp, by simp⟩⟩
    have hc : calls Prim.func (main rt).trace = 1 := by simp [hm, calls, Event.prim]
    have hr : (main rt).result = 0 := by simp [hm]
    have hall : allStepsSucceed rt :=
      ⟨by simpa [NULL] using h0, Or.inr ⟨h1, by simpa [NULL] using h2,
        by simpa [NULL] using h3, by simpa [NULL] using h4, by simpa [NULL] using h5, h6⟩⟩
    exact ⟨fun _ => ⟨hr, hc, hsplit⟩, fun h => absurd hall h, fun _ => ⟨hc, hsplit⟩,
      fun h => absurd hr h⟩
  | _ =>
    have hc : calls Prim.func (main rt).trace = 0 := by simp_all [calls, Event.prim]
    have hr : (main rt).result = 1 := by simp_all
    have hall : ¬ allStepsSucceed rt := by
      unfold allStepsSucceed
      simp_all [NULL]
    exact ⟨fun h => absurd h hall, fun _ => ⟨hr, hc⟩,
      fun h => absurd (hr ▸ h) (by decide), fun _ => hc⟩

/-- C7: `PyErr_Print` is called exactly once on every run that does not return
0 and never on a run that returns 0; in particular, when the lookup of `spec`
returns null the run returns 1 and `PyErr_Print` is called exactly once. -/
theorem error_printed_once_iff_failure (rt : Runtime) :
    calls Prim.PyErr_Print (main rt).trace = (if (main rt).result = 0 then 0 else 1) ∧
      (rt.PyInit_embed_example ≠ NULL → rt.Py_IS_TYPE = true → rt.PyDict_New ≠ NULL →
        rt.PyRun_String ≠ NULL → rt.PyDict_GetItemString = NULL →
        (main rt).result = 1 ∧ calls Prim.PyErr_Print (main rt).trace = 1) := by
  cases path_of rt <;> simp_all [NULL, calls, Event.prim]

/-- C8: whenever a module object `p` was acquired during a run (the non-null
handle recognised as a ready module, or the non-null result of
materialization), the run performs exactly one release through `mod`, and it is
the release of `p`; when `p` is a different object from the construction
result, the specification and the environment, that is the only release of `p`
in the whole run.  This includes the run on which materialization succeeds and
execution returns non-zero, which returns 1. -/
theorem module_released_once (rt : Runtime) :
    (∀ p, p ≠ NULL →
        (Event.Py_IS_TYPE p false ∈ (main rt).trace ∨
          ∃ d sp, Event.PyModule_FromDefAndSpec d sp p ∈ (main rt).trace) →
        releases Var.mod (main rt).trace = 1 ∧
          (main rt).trace.count (Event.Py_DECREF Var.mod p) = 1 ∧
          (p ≠ rt.PyRun_String → p ≠ rt.PyDict_GetItemString → p ≠ rt.PyDict_New →
            releasesOf p (main rt).trace = 1)) ∧
      (∀ m d r, r ≠ 0 → Event.PyModule_ExecDef m d r ∈ (main rt).trace →
        (main rt).result = 1 ∧ releases Var.mod (main rt).trace = 1 ∧
          (main rt).trace.count (Event.Py_DECREF Var.mod m) = 1) ∧
      releases Var.mod (main rt).trace = (if (steps rt).mod = NULL then 0 else 1) := by
  cases path_of rt with
  | ready h0 h1 hs hm =>
    refine ⟨?_, ?_, ?_⟩
    · intro p hp h
      have hpe : p = rt.PyInit_embed_example := by
        simpa [hm] using h
      subst hpe
      simp [hm, releases, releasesOf, Event.isRelease, Event.releasesObject,
        List.count_cons]
    · intro m d r hr h
      simp [hm] at h
    · simp [hm, hs, NULL, h0, releases, Event.isRelease]
  | execFail h0 h1 h2 h3 h4 h5 h6 hs hm =>
    refine ⟨?_, ?_, ?_⟩
    · intro p hp h
      have hpe : p = rt.PyModule_FromDefAndSpec := by
        simpa [hm] using h
      subst hpe
      refine ⟨by simp [hm, releases, Event.isRelease],
        by simp [hm, List.count_cons], ?_⟩
      intro ha hb hc
      simp [hm, releasesOf, Event.releasesObject, List.countP_cons, Ne.symm ha,
        Ne.symm hb, Ne.symm hc]
    · intro m d r hr h
      have hme : m = rt.PyModule_FromDefAndSpec := by
        simp [hm] at h
        exact h.1
      subst hme
      simp [hm, releases, Event.isRelease, List.count_cons]
    · simp [hm, hs, NULL, h5, releases, Event.isRelease]
  | success h0 h1 h2 h3 h4 h5 h6 hs hm =>
    refine ⟨?_, ?_, ?_⟩
    · intro p hp h
      have hpe : p = rt.PyModule_FromDefAndSpec := by
        simpa [hm] using h
      subst hpe
      refine ⟨by simp [hm, releases, Event.isRelease],
        by simp [hm, List.count_cons], ?_⟩
      intro ha hb hc
      simp [hm, releasesOf, Event.releasesObject, List.countP_cons, Ne.symm ha,
        Ne.symm hb, Ne.symm hc]
    · intro m d r hr h
      simp [hm] at h
      exact absurd h.2.2 hr
    · simp [hm, hs, NULL, h5, releases, Event.isRelease]
  | _ =>
    refine ⟨?_, ?_, ?_⟩
    · intro p hp h
      simp_all [NULL]
    · intro m d r hr h
      simp_all
    · simp_all [NULL, releases, Event.isRelease]

/-- C9: every run is the steps of lines 6-43, then the unwind, then
`Py_Finalize`, which occurs once and last.  The steps contain no release
through `mod`, `spec` or `spec_globals` and no `Py_Finalize`.  The unwind is
the list of releases of the non-null ones among `mod`, `spec`, `spec_globals`,
in that order, so each of the three is released once when non-null and not at
all when null; after an entry-point failure no release is performed at all. -/
theorem unwind_once_in_order (rt : Runtime) :
    (main rt).trace
        = (steps rt).trace ++ unwind (steps rt).mod (steps rt).spec (steps rt).spec_globals
          ++ [Event.Py_Finalize] ∧
      (∀ e ∈ (steps rt).trace, e.prim ≠ Prim.Py_Finalize ∧ e.isRelease Var.mod = false ∧
        e.isRelease Var.spec = false ∧ e.isRelease Var.spec_globals = false) ∧
      unwind (steps rt).mod (steps rt).spec (steps rt).spec_globals
        = (([(Var.mod, (steps rt).mod), (Var.spec, (steps rt).spec),
              (Var.spec_globals, (steps rt).spec_globals)].filter
              (fun x => decide (x.2 ≠ NULL))).map (fun x => Event.Py_DECREF x.1 x.2)) ∧
      calls Prim.Py_Finalize (main rt).trace = 1 ∧
      releases Var.mod (main rt).trace = (if (steps rt).mod = NULL then 0 else 1) ∧
      releases Var.spec (main rt).trace = (if (steps rt).spec = NULL then 0 else 1) ∧
      releases Var.spec_globals (main rt).trace
        = (if (steps rt).spec_globals = NULL then 0 else 1) ∧
      (rt.PyInit_embed_example = NULL →
        unwind (steps rt).mod (steps rt).spec (steps rt).spec_globals = [] ∧
          calls Prim.Py_DECREF (main rt).trace = 0) := by
  refine ⟨rfl, ?_⟩
  cases path_of rt <;>
    simp_all [NULL, unwind, Py_XDECREF, calls, releases, Event.prim, Event.isRelease,
      List.filter_cons]

/-- C10: when the entry point returns a module descriptor, the variable `mod`
holds either null or the result of materialization when the unwind starts;
every release of the run is a release of the construction result, of the
materialized module, of the looked-up specification or of the environment; so
whenever the descriptor is a different object from those four, it is never
released. -/
theorem descriptor_never_released (rt : Runtime)
    (hnn : rt.PyInit_embed_example ≠ NULL) (hty : rt.Py_IS_TYPE = true) :
    ((steps rt).mod = NULL ∨ (steps rt).mod = rt.PyModule_FromDefAndSpec) ∧
      (∀ v p, Event.Py_DECREF v p ∈ (main rt).trace →
        (v = Var.res ∧ p = rt.PyRun_String) ∨
        (v = Var.mod ∧ p = rt.PyModule_FromDefAndSpec) ∨
        (v = Var.spec ∧ p = rt.PyDict_GetItemString) ∨
        (v = Var.spec_globals ∧ p = rt.PyDict_New)) ∧
      (rt.PyInit_embed_example ≠ rt.PyRun_String →
        rt.PyInit_embed_example ≠ rt.PyModule_FromDefAndSpec →
        rt.PyInit_embed_example ≠ rt.PyDict_GetItemString →
        rt.PyInit_embed_example ≠ rt.PyDict_New →
        ∀ v, Event.Py_DECREF v rt.PyInit_embed_example ∉ (main rt).trace) := by
  cases path_of rt with
  | entryNull h0 hs hm => exact absurd h0 hnn
  | ready h0 h1 hs hm => simp [hty] at h1
  | _ =>
    refine ⟨by simp_all [NULL], ?_, ?_⟩
    · intro v p h
      simp_all
      try tauto
    · intro a b c d v h
      simp_all

/-- Witness for `descriptor_never_released`: a complete multi-phase run with
the descriptor at address 1 and four other objects at addresses 2 to 5. -/
theorem descriptor_never_released_witness :
    (steps ⟨1, true, 2, 3, 4, 5, 0⟩).mod = 5 ∧
      Event.Py_DECREF Var.mod 1 ∉ (main ⟨1, true, 2, 3, 4, 5, 0⟩).trace :=
  have h := descriptor_never_released ⟨1, true, 2, 3, 4, 5, 0⟩ (by decide) rfl
  ⟨by decide, h.2.2 (by decide) (by decide) (by decide) (by decide) Var.mod⟩

end EmbedExample
